import Mathlib

/-!
Shallow embedding of `src/ai.py` (SQLite-backed logbook / attendance store and
the `ai_suggestions` similarity routine), with theorems checking the spec's
claims against it.

Modelling conventions:
* The SQLite database is a `Store`: the two tables as lists of rows in
  insertion (rowid) order, together with the `AUTOINCREMENT` counters
  (SQLite assigns ids 1, 2, 3, ...).
* `datetime.now().strftime("%Y-%m-%d")` is modelled by an explicit `now`
  argument: the server clock at the moment of the call.  The Python
  `mark_attendance` takes no caller-supplied date, and neither does the model.
* `SELECT * FROM t ORDER BY date DESC` is modelled as a stable insertion sort
  by date descending (ISO date strings compare lexicographically; ties keep
  rowid i.e. insertion order, the engine's stable order described in the spec).
* Reading functions return a pair `(result, store)`; the second component is
  the state of the database after the query (a `SELECT` writes nothing).
* Python exceptions are modelled with `Except PyErr`.  Line 70 of the source
  rebinds `vectorizer` to the *document-term matrix* returned by
  `fit_transform`; line 73 then calls `.transform` on that matrix, which has
  no such method, so every call with a non-empty corpus raises
  `AttributeError` (after `CountVectorizer().fit_transform` itself raises
  `ValueError` when the corpus yields an empty vocabulary).
-/

/-- Row of the `logbook` table (`create_tables`, src/ai.py lines 17-25). -/
structure LogRow where
  id : Nat
  name : String
  activity : String
  date : String
  description : String
deriving DecidableEq, Repr

/-- Row of the `attendance` table (`create_tables`, src/ai.py lines 26-34). -/
structure AttRow where
  id : Nat
  student_name : String
  roll_number : String
  date : String
  status : String
deriving DecidableEq, Repr

/-- The SQLite database state: the two tables in rowid (insertion) order plus
the `AUTOINCREMENT` counters. -/
structure Store where
  logbook : List LogRow
  attendance : List AttRow
  nextLogId : Nat
  nextAttId : Nat
deriving DecidableEq, Repr

/-- `create_tables` on a fresh database file: both tables empty, the next
`AUTOINCREMENT` id of each table is 1 (src/ai.py lines 15-34). -/
def create_tables : Store :=
  { logbook := [], attendance := [], nextLogId := 1, nextAttId := 1 }

/-- `add_log_entry(conn, name, activity, date, description)`: INSERT into
`logbook`; SQLite appends the row and assigns the next id
(src/ai.py lines 37-42). -/
def add_log_entry (s : Store) (name activity date description : String) : Store :=
  { s with
      logbook := s.logbook ++
        [{ id := s.nextLogId, name := name, activity := activity,
           date := date, description := description }]
      nextLogId := s.nextLogId + 1 }

/-- `mark_attendance(conn, student_name, roll_number, status)`: INSERT into
`attendance` with the date `datetime.now().strftime("%Y-%m-%d")` — the server
clock `now`, never a caller-supplied date (src/ai.py lines 51-56). -/
def mark_attendance (s : Store) (student_name roll_number status : String)
    (now : String) : Store :=
  { s with
      attendance := s.attendance ++
        [{ id := s.nextAttId, student_name := student_name,
           roll_number := roll_number, date := now, status := status }]
      nextAttId := s.nextAttId + 1 }

/-- Ordering used by `ORDER BY date DESC` on the logbook: `a` before `b`
when `b.date ≤ a.date` (lexicographic on the ISO text). -/
def dateGeL (a b : LogRow) : Prop := b.date ≤ a.date

instance : DecidableRel dateGeL := fun a b =>
  inferInstanceAs (Decidable (b.date ≤ a.date))

instance : IsTotal LogRow dateGeL := ⟨fun a b => le_total b.date a.date⟩

instance : IsTrans LogRow dateGeL :=
  ⟨fun _ _ _ h h' => le_trans h' h⟩

/-- Ordering used by `ORDER BY date DESC` on the attendance table. -/
def dateGeA (a b : AttRow) : Prop := b.date ≤ a.date

instance : DecidableRel dateGeA := fun a b =>
  inferInstanceAs (Decidable (b.date ≤ a.date))

instance : IsTotal AttRow dateGeA := ⟨fun a b => le_total b.date a.date⟩

instance : IsTrans AttRow dateGeA :=
  ⟨fun _ _ _ h h' => le_trans h' h⟩

/-- `get_log_entries(conn)`: `SELECT * FROM logbook ORDER BY date DESC` as a
dataframe; a stable sort of the table by date descending.  The `SELECT`
leaves the database unchanged, reflected in the second component
(src/ai.py lines 45-48). -/
def get_log_entries (s : Store) : List LogRow × Store :=
  (List.insertionSort dateGeL s.logbook, s)

/-- `get_attendance(conn)`: `SELECT * FROM attendance ORDER BY date DESC`
(src/ai.py lines 59-62). -/
def get_attendance (s : Store) : List AttRow × Store :=
  (List.insertionSort dateGeA s.attendance, s)

/-- Python exceptions raised by `ai_suggestions`. -/
inductive PyErr where
  | attributeError (msg : String)
  | valueError (msg : String)
deriving DecidableEq, Repr

/-- sklearn `CountVectorizer` default token pattern `\b\w\w+\b` over the
lowercased text (ASCII word characters): maximal runs of word characters of
length at least 2. -/
def isWordChar (c : Char) : Bool := c.isAlphanum || c == '_'

/-- Split a character stream into maximal runs of word characters; `acc` holds
the current run, reversed. -/
def tokenizeAux : List Char → List Char → List (List Char)
  | acc, [] => if acc.isEmpty then [] else [acc.reverse]
  | acc, c :: cs =>
      if isWordChar c then tokenizeAux (c :: acc) cs
      else if acc.isEmpty then tokenizeAux [] cs
      else acc.reverse :: tokenizeAux [] cs

/-- Tokens of one document under the `CountVectorizer` default analyzer:
lowercase the text, then keep the maximal word-character runs of length at
least 2. -/
def tokenize (doc : String) : List String :=
  ((tokenizeAux [] (doc.data.map Char.toLower)).filter fun t => 2 ≤ t.length).map
    fun t => String.mk t

/-- Vocabulary built by `CountVectorizer().fit_transform` over the corpus
descriptions (src/ai.py line 70). -/
def buildVocab (docs : List String) : List String :=
  ((docs.map tokenize).flatten).dedup

/-- `ai_suggestions(new_description, logbook_df)` (src/ai.py lines 65-85).
With an empty dataframe it warns and returns `None` (no suggestion).
Otherwise line 70 rebinds `vectorizer` to the sparse matrix returned by
`fit_transform` (which raises `ValueError` if the corpus produces an empty
vocabulary); line 73 then calls `.transform` on that matrix object, which has
no `transform` method, so the call raises `AttributeError` before any
similarity is computed.  No success path past line 73 exists. -/
def ai_suggestions (new_description : String) (logbook_df : List LogRow) :
    Except PyErr (Option LogRow) :=
  if logbook_df.isEmpty then
    Except.ok none
  else if (buildVocab (logbook_df.map fun r => r.description)).isEmpty then
    Except.error (PyErr.valueError "empty vocabulary")
  else
    Except.error (PyErr.attributeError "csr_matrix object has no attribute transform")

/-- The "AI Log Suggestions" page flow (src/ai.py lines 140-150): fetch the
logbook, then run `ai_suggestions` on it with the entered description.
Both steps only read the database. -/
def ai_suggestions_page (s : Store) (q : String) :
    Except PyErr (Option LogRow) × Store :=
  (ai_suggestions q (get_log_entries s).1, (get_log_entries s).2)

/-- Arguments of one `add_log_entry` call: name, activity, date, description. -/
def AddArgs := String × String × String × String

/-- Run a sequence of `add_log_entry` calls against a store. -/
def runAdds (s : Store) : List AddArgs → Store
  | [] => s
  | (n, a, d, de) :: rest => runAdds (add_log_entry s n a d de) rest

/-- The rows a sequence of `add_log_entry` calls inserts, ids assigned
consecutively from `i`. -/
def mkRows (i : Nat) : List AddArgs → List LogRow
  | [] => []
  | (n, a, d, de) :: rest =>
      { id := i, name := n, activity := a, date := d, description := de } ::
        mkRows (i + 1) rest

/-- One store operation of the application: an `add_log_entry` call or a
`mark_attendance` call (whose `now` is the clock at that moment). -/
inductive Op where
  | addLog (name activity date description : String)
  | markAtt (student_name roll_number status now : String)
deriving DecidableEq, Repr

/-- Apply one operation to the store. -/
def applyOp (s : Store) : Op → Store
  | Op.addLog n a d de => add_log_entry s n a d de
  | Op.markAtt n r st now => mark_attendance s n r st now

/-- Run a sequence of operations from a store. -/
def runOps (s : Store) (ops : List Op) : Store :=
  ops.foldl applyOp s

section Lemmas

theorem runAdds_logbook (ops : List AddArgs) :
    ∀ s : Store, (runAdds s ops).logbook = s.logbook ++ mkRows s.nextLogId ops := by
  induction ops with
  | nil => intro s; simp [runAdds, mkRows]
  | cons p rest ih =>
      intro s
      obtain ⟨n, a, d, de⟩ := p
      simp [runAdds, mkRows, ih, add_log_entry, List.append_assoc]

end Lemmas

/-- C1: starting from an empty logbook, after any sequence of `add_log_entry`
calls the table holds exactly the inserted rows (ids 1, 2, ...), and
`get_log_entries` returns a permutation of them (same multiset,
count-preserved) sorted by date descending (lexicographic on the ISO text). -/
theorem addLogEntry_getLogEntries_exact (ops : List AddArgs) :
    (runAdds create_tables ops).logbook = mkRows 1 ops ∧
    (get_log_entries (runAdds create_tables ops)).1.Perm (mkRows 1 ops) ∧
    List.Sorted dateGeL (get_log_entries (runAdds create_tables ops)).1 := by
  have hlb : (runAdds create_tables ops).logbook = mkRows 1 ops := by
    simpa [create_tables] using runAdds_logbook ops create_tables
  refine ⟨hlb, ?_, ?_⟩
  · simpa [get_log_entries, hlb] using
      List.perm_insertionSort dateGeL (mkRows 1 ops)
  · exact List.sorted_insertionSort dateGeL _

/-- C3: `ai_suggestions` on an empty corpus returns `None` ("no suggestion"),
never an entry and never an error, for any query string. -/
theorem ai_suggestions_empty_corpus (q : String) :
    ai_suggestions q [] = Except.ok none := by
  simp [ai_suggestions]

/-- C4: `mark_attendance` appends one row whose stored date is the server
clock `now` at the moment of the call; the arguments carry no caller-supplied
date and nothing else is stored in the date field. -/
theorem markAttendance_date_is_now (s : Store)
    (student_name roll_number status now : String) :
    (mark_attendance s student_name roll_number status now).attendance =
      s.attendance ++
        [{ id := s.nextAttId, student_name := student_name,
           roll_number := roll_number, date := now, status := status }] ∧
    ∀ r ∈ (mark_attendance s student_name roll_number status now).attendance,
      r ∉ s.attendance → r.date = now := by
  constructor
  · rfl
  · intro r hr hnot
    rcases List.mem_append.mp hr with h | h
    · exact absurd h hnot
    · rcases List.mem_singleton.mp h with rfl
      rfl

/-! Concrete rows and stores used by individual claims. -/

/-- Corpus row whose description is identical to the query of the C2 scenario. -/
def c2Row : LogRow :=
  { id := 1, name := "Alice", activity := "Task", date := "2024-01-01",
    description := "hello world" }

/-- First corpus row of the C6 tie scenario. -/
def c6Row1 : LogRow :=
  { id := 1, name := "Ann", activity := "Task", date := "2024-01-01",
    description := "alpha beta" }

/-- Second corpus row of the C6 tie scenario. -/
def c6Row2 : LogRow :=
  { id := 2, name := "Ben", activity := "Task", date := "2024-01-02",
    description := "alpha beta" }

/-- Corpus row of the C7 scenario. -/
def c7Row : LogRow :=
  { id := 1, name := "Cara", activity := "Event", date := "2024-02-02",
    description := "math class" }

/-- Corpus row of the C9 whitespace-query scenario. -/
def c9Row : LogRow :=
  { id := 1, name := "Dan", activity := "Other", date := "2024-03-03",
    description := "hello world" }

/-- The C5 scenario: mark ("Bob","R101","Present") then ("Bob","R101","Absent")
on the same day, starting from a fresh store. -/
def bobScenario : Store :=
  mark_attendance
    (mark_attendance create_tables "Bob" "R101" "Present" "2024-05-01")
    "Bob" "R101" "Absent" "2024-05-01"

/-- The row the first (Present) mark of the C5 scenario inserts. -/
def bobPresentRow : AttRow :=
  { id := 1, student_name := "Bob", roll_number := "R101",
    date := "2024-05-01", status := "Present" }

/-- The row the second (Absent) mark of the C5 scenario inserts. -/
def bobAbsentRow : AttRow :=
  { id := 2, student_name := "Bob", roll_number := "R101",
    date := "2024-05-01", status := "Absent" }

/-- C2 (code bug): on the corpus `[c2Row]` whose single description is
identical to the query, `ai_suggestions` does not return the entry with score
1.0: line 70 rebinds `vectorizer` to the matrix returned by `fit_transform`,
so line 73's `vectorizer.transform` raises `AttributeError` before any
similarity is computed. -/
theorem ai_suggestions_identical_description_crashes :
    ai_suggestions "hello world" [c2Row] =
      Except.error
        (PyErr.attributeError "csr_matrix object has no attribute transform") := by
  rfl

/-- C6 (code bug): on a non-empty corpus with tied descriptions the argmax
scan at line 77 is never reached: line 73 raises `AttributeError` first, so
no entry of maximal similarity is returned. -/
theorem ai_suggestions_argmax_never_reached :
    ai_suggestions "alpha" [c6Row1, c6Row2] =
      Except.error
        (PyErr.attributeError "csr_matrix object has no attribute transform") := by
  rfl

/-- C7 (code bug): no cosine similarity score is computed for any corpus
entry: the call raises `AttributeError` at line 73, before
`cosine_similarity` at line 74 runs. -/
theorem ai_suggestions_no_score_computed :
    ai_suggestions "science" [c7Row] =
      Except.error
        (PyErr.attributeError "csr_matrix object has no attribute transform") := by
  rfl

/-- C9 (code bug): a whitespace-only query on a non-empty corpus does not
produce a result: like every query on a non-empty corpus, the call raises
`AttributeError` at line 73 instead of running the similarity computation. -/
theorem ai_suggestions_whitespace_query_crashes :
    ai_suggestions "   " [c9Row] =
      Except.error
        (PyErr.attributeError "csr_matrix object has no attribute transform") := by
  rfl

theorem bob_get_attendance_eq :
    (get_attendance bobScenario).1 = [bobPresentRow, bobAbsentRow] := by
  have hatt : bobScenario.attendance = [bobPresentRow, bobAbsentRow] := rfl
  have hcond : dateGeA bobPresentRow bobAbsentRow := le_refl _
  show List.insertionSort dateGeA bobScenario.attendance = _
  rw [hatt]
  simp [List.insertionSort, List.orderedInsert, hcond]

/-- C5 counterexample: in the same-day Bob scenario `get_attendance` does NOT
return the rows most recent first.  The two rows tie on `date`, so the stable
`ORDER BY date DESC` keeps insertion order: the Present row (marked first)
comes back first and the Absent row (the most recent) last. -/
theorem getAttendance_not_most_recent_first :
    (get_attendance bobScenario).1 = [bobPresentRow, bobAbsentRow] ∧
    (get_attendance bobScenario).1 ≠ [bobAbsentRow, bobPresentRow] := by
  refine ⟨bob_get_attendance_eq, ?_⟩
  rw [bob_get_attendance_eq]
  decide

/-- C5 amended: the second same-day mark never overwrites the first — in the
Bob scenario `get_attendance` returns both rows (in insertion order, as they
tie on date) — and every store operation only appends: the prior contents of
both tables are preserved by `add_log_entry` and `mark_attendance`. -/
theorem markAttendance_append_only :
    (get_attendance bobScenario).1 = [bobPresentRow, bobAbsentRow] ∧
    bobPresentRow ∈ (get_attendance bobScenario).1 ∧
    bobAbsentRow ∈ (get_attendance bobScenario).1 ∧
    (∀ (s : Store) (op : Op),
      (∃ t, (applyOp s op).logbook = s.logbook ++ t) ∧
      (∃ t, (applyOp s op).attendance = s.attendance ++ t)) := by
  refine ⟨bob_get_attendance_eq, ?_, ?_, ?_⟩
  · rw [bob_get_attendance_eq]; exact List.mem_cons_self _ _
  · rw [bob_get_attendance_eq]; exact List.mem_cons_of_mem _ (List.mem_cons_self _ _)
  · intro s op
    cases op with
    | addLog n a d de => exact ⟨⟨_, rfl⟩, ⟨[], by simp [applyOp, add_log_entry]⟩⟩
    | markAtt n r st now => exact ⟨⟨[], by simp [applyOp, mark_attendance]⟩, ⟨_, rfl⟩⟩

/-- Invariant tying the `AUTOINCREMENT` counters to the table contents: every
stored id is below the table's next id, and ids are strictly increasing in
insertion order. -/
def StoreInv (s : Store) : Prop :=
  (∀ r ∈ s.logbook, r.id < s.nextLogId) ∧
  List.Pairwise (fun a b : LogRow => a.id < b.id) s.logbook ∧
  (∀ r ∈ s.attendance, r.id < s.nextAttId) ∧
  List.Pairwise (fun a b : AttRow => a.id < b.id) s.attendance

theorem storeInv_create : StoreInv create_tables := by
  refine ⟨?_, ?_, ?_, ?_⟩ <;> simp [create_tables]

theorem storeInv_applyOp (s : Store) (op : Op) (h : StoreInv s) :
    StoreInv (applyOp s op) := by
  obtain ⟨h1, h2, h3, h4⟩ := h
  cases op with
  | addLog n a d de =>
      refine ⟨?_, ?_, h3, h4⟩
      · intro r hr
        rcases List.mem_append.mp hr with hr | hr
        · exact Nat.lt_succ_of_lt (h1 r hr)
        · rcases List.mem_singleton.mp hr with rfl
          exact Nat.lt_succ_self _
      · refine List.pairwise_append.mpr ⟨h2, List.pairwise_singleton _ _, ?_⟩
        intro a ha b hb
        rcases List.mem_singleton.mp hb with rfl
        exact h1 a ha
  | markAtt n r st now =>
      refine ⟨h1, h2, ?_, ?_⟩
      · intro x hx
        rcases List.mem_append.mp hx with hx | hx
        · exact Nat.lt_succ_of_lt (h3 x hx)
        · rcases List.mem_singleton.mp hx with rfl
          exact Nat.lt_succ_self _
      · refine List.pairwise_append.mpr ⟨h4, List.pairwise_singleton _ _, ?_⟩
        intro a ha b hb
        rcases List.mem_singleton.mp hb with rfl
        exact h3 a ha

theorem storeInv_runOps (ops : List Op) :
    ∀ s : Store, StoreInv s → StoreInv (runOps s ops) := by
  induction ops with
  | nil => intro s h; exact h
  | cons op rest ih =>
      intro s h
      exact ih (applyOp s op) (storeInv_applyOp s op h)

/-- C8: in every state reachable from a fresh store by any sequence of
`add_log_entry` and `mark_attendance` operations, the ids of each table are
strictly increasing in insertion order (hence pairwise unique). -/
theorem ids_unique_and_increasing (ops : List Op) :
    List.Pairwise (· < ·)
      ((runOps create_tables ops).logbook.map fun r => r.id) ∧
    ((runOps create_tables ops).logbook.map fun r => r.id).Nodup ∧
    List.Pairwise (· < ·)
      ((runOps create_tables ops).attendance.map fun r => r.id) ∧
    ((runOps create_tables ops).attendance.map fun r => r.id).Nodup := by
  obtain ⟨-, h2, -, h4⟩ := storeInv_runOps ops create_tables storeInv_create
  have hl : List.Pairwise (· < ·)
      ((runOps create_tables ops).logbook.map fun r => r.id) :=
    List.pairwise_map.mpr h2
  have ha : List.Pairwise (· < ·)
      ((runOps create_tables ops).attendance.map fun r => r.id) :=
    List.pairwise_map.mpr h4
  exact ⟨hl, hl.imp fun h => Nat.ne_of_lt h, ha, ha.imp fun h => Nat.ne_of_lt h⟩

/-- Witness for C4 at a concrete call: marking ("Bob", "R101", "Present") on a
fresh store with the clock reading "2024-05-01" stores exactly that date. -/
theorem markAttendance_date_is_now_witness :
    (mark_attendance create_tables "Bob" "R101" "Present" "2024-05-01").attendance =
      create_tables.attendance ++
        [{ id := create_tables.nextAttId, student_name := "Bob",
           roll_number := "R101", date := "2024-05-01", status := "Present" }] ∧
    ∀ r ∈ (mark_attendance create_tables "Bob" "R101" "Present" "2024-05-01").attendance,
      r ∉ create_tables.attendance → r.date = "2024-05-01" :=
  markAttendance_date_is_now create_tables "Bob" "R101" "Present" "2024-05-01"

/-- C10: frame — `get_log_entries`, `get_attendance` and the suggestion page
leave the database unchanged; `add_log_entry` does not touch the attendance
table or its id counter; `mark_attendance` does not touch the logbook table
or its id counter. -/
theorem ops_frame :
    (∀ s : Store, (get_log_entries s).2 = s) ∧
    (∀ s : Store, (get_attendance s).2 = s) ∧
    (∀ (s : Store) (q : String), (ai_suggestions_page s q).2 = s) ∧
    (∀ (s : Store) (n a d de : String),
      (add_log_entry s n a d de).attendance = s.attendance ∧
      (add_log_entry s n a d de).nextAttId = s.nextAttId) ∧
    (∀ (s : Store) (n r st now : String),
      (mark_attendance s n r st now).logbook = s.logbook ∧
      (mark_attendance s n r st now).nextLogId = s.nextLogId) := by
  refine ⟨fun s => rfl, fun s => rfl, fun s q => rfl, fun s n a d de => ⟨rfl, rfl⟩,
    fun s n r st now => ⟨rfl, rfl⟩⟩
